import Mathlib

/-!
Verification of the pairwise-messenger backend (FastAPI + Cassandra).

Shallow embedding of the core logic of:
  * `app/controllers/message_controller.py`  (MessageController)
  * `app/controllers/conversation_controller.py`  (ConversationController)
  * `app/models/cassandra_models.py`  (ConversationModel)
against the denormalized three-table data model of `scripts/setup_db.py`.

Modelling conventions:
  * UUIDs are opaque identifiers, modelled as `Nat`; the all-zero UUID
    `"00000000-0000-0000-0000-000000000000"` (the receiver sentinel and
    `uuid.UUID(int=0)`) is modelled as `0`.  Python compares UUIDs via
    `str(..) == str(..)`; `str` on UUIDs is injective, so this is plain
    equality on the model.
  * `datetime` values are modelled as `Nat` timestamps (a totally ordered
    clock; only order and equality of timestamps matter to the code).
  * `uuid.UUID(string)` is library code outside the repository; each
    operation takes the parse outcome as an `Option UUID` argument
    (`none` = the string is malformed and the constructor raises ValueError).
  * `uuid.uuid4()` / `uuid.uuid1()` are modelled as draws from a fresh-supply
    counter `Gen`; freshness of drawn identifiers with respect to a store is
    the hypothesis "every identifier in the store is below the counter".
  * Store queries go against a `Store` value holding the three tables as
    lists in store (partition + clustering) order; a query that can raise is
    given a Boolean failure oracle, and each Python `try/except` becomes an
    `Except` computation plus an explicit catch.
  * The pydantic response schemas (`app/schemas/*`, not part of the core
    sources) are plain data carriers; they are modelled from the spec as
    structures with the fields the controllers populate.
-/

namespace Messenger

/-- UUIDs modelled as naturals. -/
abbrev UUID := Nat

/-- The all-zero sentinel UUID `00000000-0000-0000-0000-000000000000`. -/
def sentinelUUID : UUID := 0

/-- Timestamps modelled as naturals. -/
abbrev Timestamp := Nat

/-- Row of table `conversation_details` (setup_db.py):
`PRIMARY KEY (conversation_id)`, attributes `participants`, `created_at`. -/
structure CDRow where
  conversation_id : UUID
  participants : List UUID
  created_at : Timestamp
deriving DecidableEq, Repr

/-- Row of table `messages_by_conversation` (setup_db.py):
partition `conversation_id`, clustering `message_id DESC`. -/
structure MBCRow where
  conversation_id : UUID
  message_id : UUID
  sender_id : UUID
  message_text : String
  created_at : Timestamp
deriving DecidableEq, Repr

/-- Row of table `conversations_by_user` (setup_db.py):
partition `user_id`, clustering `(last_message_time DESC, conversation_id)`. -/
structure CBURow where
  user_id : UUID
  last_message_time : Timestamp
  conversation_id : UUID
  last_message : String
  participants : List UUID
deriving DecidableEq, Repr

/-- The three denormalized tables; each list is kept in store order
(the order in which the store returns a partition scan). -/
structure Store where
  conversation_details : List CDRow
  messages_by_conversation : List MBCRow
  conversations_by_user : List CBURow
deriving DecidableEq, Repr

/-- Modelled from the spec: the `MessageResponse` pydantic schema
(`app/schemas/message.py` is not among the core sources); a plain record
with the fields the controllers populate (spec section 6). -/
structure MessageResponse where
  id : UUID
  sender_id : UUID
  receiver_id : UUID
  created_at : Timestamp
  content : String
  conversation_id : UUID
deriving DecidableEq, Repr

/-- Modelled from the spec: the `PaginatedMessageResponse` schema,
a paged list with `total`, `page`, `limit`, `data` (spec section 6). -/
structure PaginatedMessageResponse where
  total : Nat
  page : Nat
  limit : Nat
  data : List MessageResponse
deriving DecidableEq, Repr

/-- Modelled from the spec: the `ConversationResponse` schema
(`app/schemas/conversation.py` is not among the core sources). -/
structure ConversationResponse where
  id : UUID
  user1_id : UUID
  user2_id : UUID
  last_message_at : Timestamp
  last_message_content : Option String
deriving DecidableEq, Repr

/-- Modelled from the spec: the `PaginatedConversationResponse` schema. -/
structure PaginatedConversationResponse where
  total : Nat
  page : Nat
  limit : Nat
  data : List ConversationResponse
deriving DecidableEq, Repr

/-- Outcome surfaced to the HTTP handler layer: a value, an
HTTPException 500 (generic failure), or an HTTPException 404 (not found). -/
inductive HttpOutcome (α : Type) where
  | ok : α → HttpOutcome α
  | internalError : HttpOutcome α
  | notFound : HttpOutcome α
deriving DecidableEq, Repr

/-! ### Store queries -/

/-- Query `SELECT .. FROM messages_by_conversation WHERE conversation_id = %s`:
the conversation partition, in store clustering order. -/
def selectMessages (s : Store) (cid : UUID) : List MBCRow :=
  s.messages_by_conversation.filter (fun r => r.conversation_id == cid)

/-- Query `SELECT .. FROM conversation_details WHERE conversation_id = %s`
followed by `.one()`. -/
def selectDetails (s : Store) (cid : UUID) : Option CDRow :=
  (s.conversation_details.filter (fun r => r.conversation_id == cid)).head?

/-- Participant extraction shared by both message readers:
`details_row.participants` when a details row exists, else `[]`. -/
def lookupParticipants (s : Store) (cid : UUID) : List UUID :=
  match selectDetails s cid with
  | some d => d.participants
  | none => []

/-- Query `SELECT last_message_time, last_message FROM conversations_by_user
WHERE user_id = %s AND conversation_id = %s ALLOW FILTERING` followed by
`.one()` (cassandra_models.py lines 164-171). -/
def selectLastMessage (s : Store) (uid cid : UUID) : Option CBURow :=
  (s.conversations_by_user.filter
    (fun r => r.user_id == uid && r.conversation_id == cid)).head?

/-! ### Shared pure logic -/

/-- Receiver resolution, duplicated at message_controller.py lines 141-148
and 262-271: start from the all-zero sentinel; when the participant list has
more than one element, the receiver is the participant the sender is not. -/
def resolveReceiver (sender : UUID) (participants : List UUID) : UUID :=
  match participants with
  | a :: b :: _ =>
      if sender == a then b
      else if sender == b then a
      else sentinelUUID
  | _ => sentinelUUID

/-- Assembly of one `MessageResponse` from a store row
(message_controller.py lines 151-158). -/
def rowToMessageResponse (participants : List UUID) (row : MBCRow) :
    MessageResponse :=
  { id := row.message_id
    sender_id := row.sender_id
    receiver_id := resolveReceiver row.sender_id participants
    created_at := row.created_at
    content := row.message_text
    conversation_id := row.conversation_id }

/-- Python list slice `l[start : start + limit]` for nonnegative indices
(the pagination slice `all_rows[start:end]` with `end = start + limit`). -/
def pySlice (l : List α) (start limit : Nat) : List α :=
  (l.drop start).take limit

/-! ### MessageController.send_message -/

/-- Fresh-identifier supply modelling `uuid.uuid4()` / `uuid.uuid1()`. -/
structure Gen where
  next : Nat
deriving DecidableEq, Repr

/-- Draw one fresh identifier from the supply. -/
def Gen.fresh (g : Gen) : UUID × Gen := (g.next, ⟨g.next + 1⟩)

/-- One INSERT issued against the store, tagged by target table. -/
inductive Write where
  | cd : CDRow → Write
  | mbc : MBCRow → Write
  | cbu : CBURow → Write
deriving DecidableEq, Repr

/-- The timestamp column carried by a write: `created_at` for the first two
tables, `last_message_time` for `conversations_by_user`. -/
def Write.timestamp : Write → Timestamp
  | .cd r => r.created_at
  | .mbc r => r.created_at
  | .cbu r => r.last_message_time

/-- Every `conversation_id` stored anywhere in the three tables. -/
def storeConversationIds (s : Store) : List UUID :=
  s.conversation_details.map (fun r => r.conversation_id)
    ++ s.messages_by_conversation.map (fun r => r.conversation_id)
    ++ s.conversations_by_user.map (fun r => r.conversation_id)

/-- Result of a successful send: the returned `MessageResponse`, the store
writes in execution order, and the advanced identifier supply. -/
structure SendResult where
  response : MessageResponse
  writes : List Write
  gen : Gen
deriving DecidableEq, Repr

/-- MessageController.send_message (message_controller.py lines 17-71).
`senderParsed` / `receiverParsed` are the outcomes of
`uuid.UUID(message_data.sender_id)` / `uuid.UUID(message_data.receiver_id)`;
a `none` raises ValueError, which the outer handler converts to an
HTTPException 500, modelled as `Except.error`.  On success the method issues,
in order: one `conversation_details` INSERT, one `messages_by_conversation`
INSERT, and one `conversations_by_user` INSERT per participant. -/
def send_message (g : Gen) (now : Timestamp)
    (senderParsed receiverParsed : Option UUID) (content : String) :
    Except Unit SendResult :=
  let (conversation_id, g1) := g.fresh
  match senderParsed, receiverParsed with
  | some sender, some receiver =>
      let participants := [sender, receiver]
      let cdRow : CDRow :=
        { conversation_id := conversation_id
          participants := participants
          created_at := now }
      let (message_id, g2) := g1.fresh
      let mbcRow : MBCRow :=
        { conversation_id := conversation_id
          message_id := message_id
          sender_id := sender
          message_text := content
          created_at := now }
      let cbuRows : List CBURow := participants.map (fun u =>
        { user_id := u
          last_message_time := now
          conversation_id := conversation_id
          last_message := content
          participants := participants })
      .ok
        { response :=
            { id := message_id
              sender_id := sender
              receiver_id := receiver
              created_at := now
              content := content
              conversation_id := conversation_id }
          writes := .cd cdRow :: .mbc mbcRow :: cbuRows.map .cbu
          gen := g2 }
  | _, _ => .error ()

/-! ### MessageController.get_conversation_messages -/

/-- Failure oracle for the two store queries of
`get_conversation_messages`. -/
structure MsgsOracle where
  messagesQueryFails : Bool
  detailsQueryFails : Bool
deriving DecidableEq, Repr

/-- Oracle under which no store call raises. -/
def noMsgsFail : MsgsOracle := ⟨false, false⟩

/-- Body of the `try` block of MessageController.get_conversation_messages
(message_controller.py lines 82-165): parse the identifier, load the whole
partition, report `total` as the partition size, early-return an empty page
when the partition is empty, otherwise slice `[start:end)` with
`start = (page-1)*limit`, `end = start+limit`, load the participant pair and
assemble the page. -/
def get_conversation_messagesTry (s : Store) (parsed : Option UUID)
    (page limit : Nat) (o : MsgsOracle) :
    Except Unit PaginatedMessageResponse :=
  match parsed with
  | none => .error ()
  | some cid =>
      if o.messagesQueryFails then .error () else
      let all_rows := selectMessages s cid
      let total := all_rows.length
      if total = 0 then
        .ok { total := 0, page := page, limit := limit, data := [] }
      else
        let paged_rows := pySlice all_rows ((page - 1) * limit) limit
        if o.detailsQueryFails then .error () else
        let participants := lookupParticipants s cid
        .ok { total := total, page := page, limit := limit
              data := paged_rows.map (rowToMessageResponse participants) }

/-- MessageController.get_conversation_messages as seen by the caller:
any raised error becomes an HTTPException 500 (lines 166-173). -/
def get_conversation_messages (s : Store) (parsed : Option UUID)
    (page limit : Nat) (o : MsgsOracle) :
    HttpOutcome PaginatedMessageResponse :=
  match get_conversation_messagesTry s parsed page limit o with
  | .ok r => .ok r
  | .error _ => .internalError

/-! ### MessageController.get_messages_before_timestamp -/

/-- Failure oracle for `get_messages_before_timestamp`: the filtered
messages query, the in-memory sort, and the details query. -/
structure BeforeOracle where
  messagesQueryFails : Bool
  sortFails : Bool
  detailsQueryFails : Bool
deriving DecidableEq, Repr

/-- Oracle under which nothing fails on the before-timestamp path. -/
def noBeforeFail : BeforeOracle := ⟨false, false, false⟩

/-- Result of the filtered store query
`WHERE conversation_id = %s AND created_at < %s ALLOW FILTERING`. -/
def beforeRows (s : Store) (cid : UUID) (ts : Timestamp) : List MBCRow :=
  (selectMessages s cid).filter (fun r => decide (r.created_at < ts))

/-- Descending comparison on `created_at`, the key of
`all_rows.sort(key=lambda row: row.created_at, reverse=True)`. -/
def msgLeDesc (a b : MBCRow) : Bool := decide (b.created_at ≤ a.created_at)

/-- In-memory descending sort by `created_at`
(message_controller.py lines 200-203; Python sort is a stable merge sort). -/
def sortDesc (l : List MBCRow) : List MBCRow := l.mergeSort msgLeDesc

/-- The empty page `PaginatedMessageResponse(total=0, page, limit, data=[])`. -/
def emptyMsgPage (page limit : Nat) : PaginatedMessageResponse :=
  { total := 0, page := page, limit := limit, data := [] }

/-- Body of the `try` block of
MessageController.get_messages_before_timestamp (message_controller.py
lines 185-286): parse the identifier, run the filtered query, sort in memory
(a sort failure is caught by an inner handler and the method continues with
the unsorted rows), then paginate and assemble exactly as the unfiltered
reader does. -/
def get_messages_before_timestampTry (s : Store) (parsed : Option UUID)
    (before : Timestamp) (page limit : Nat) (o : BeforeOracle) :
    Except Unit PaginatedMessageResponse :=
  match parsed with
  | none => .error ()
  | some cid =>
      if o.messagesQueryFails then .error () else
      let all_rows := beforeRows s cid before
      let sorted := if o.sortFails then all_rows else sortDesc all_rows
      let total := sorted.length
      if total = 0 then
        .ok (emptyMsgPage page limit)
      else
        let paged_rows := pySlice sorted ((page - 1) * limit) limit
        if o.detailsQueryFails then .error () else
        let participants := lookupParticipants s cid
        .ok { total := total, page := page, limit := limit
              data := paged_rows.map (rowToMessageResponse participants) }

/-- MessageController.get_messages_before_timestamp as seen by the caller:
the outer handler (lines 288-298) catches every raised error and returns the
well-formed empty page instead of an HTTPException. -/
def get_messages_before_timestamp (s : Store) (parsed : Option UUID)
    (before : Timestamp) (page limit : Nat) (o : BeforeOracle) :
    PaginatedMessageResponse :=
  match get_messages_before_timestampTry s parsed before page limit o with
  | .ok r => r
  | .error _ => emptyMsgPage page limit

/-! ### ConversationModel / ConversationController -/

/-- The empty page `PaginatedConversationResponse(total=0, page, limit, data=[])`. -/
def emptyConvPage (page limit : Nat) : PaginatedConversationResponse :=
  { total := 0, page := page, limit := limit, data := [] }

/-- Assembly of one `ConversationResponse` from a `conversations_by_user`
row (cassandra_models.py lines 57-90): both user slots default to the
queried user and are overridden by the stored participants when present. -/
def rowToConversationResponse (userUuid : UUID) (row : CBURow) :
    ConversationResponse :=
  { id := row.conversation_id
    user1_id := match row.participants with
                | a :: _ => a
                | [] => userUuid
    user2_id := match row.participants with
                | _ :: b :: _ => b
                | _ => userUuid
    last_message_at := row.last_message_time
    last_message_content := some row.last_message }

/-- ConversationModel.get_user_conversations (cassandra_models.py lines
16-110).  The whole body sits in one `try`; the handler at lines 100-110
catches every failure — including a ValueError from `uuid.UUID(user_id)`
and any store failure — and returns the valid empty page, so the function
never raises.  `parsed` is the outcome of `uuid.UUID(user_id)`; `queryFails`
injects a store failure. -/
def get_user_conversations (s : Store) (parsed : Option UUID)
    (page limit : Nat) (queryFails : Bool) : PaginatedConversationResponse :=
  match parsed with
  | none => emptyConvPage page limit
  | some uid =>
      if queryFails then emptyConvPage page limit else
      let all_rows := s.conversations_by_user.filter (fun r => r.user_id == uid)
      let total := all_rows.length
      if total = 0 then emptyConvPage page limit
      else
        let paged_rows := pySlice all_rows ((page - 1) * limit) limit
        { total := total, page := page, limit := limit
          data := paged_rows.map (rowToConversationResponse uid) }

/-- First stored participant, defaulting to the all-zero sentinel
(`str(uuid.UUID(int=0))`, cassandra_models.py lines 151-156). -/
def firstParticipant : List UUID → UUID
  | a :: _ => a
  | [] => sentinelUUID

/-- Second stored participant, defaulting to the all-zero sentinel
(cassandra_models.py lines 152-158). -/
def secondParticipant : List UUID → UUID
  | _ :: b :: _ => b
  | _ => sentinelUUID

/-- Failure oracle for ConversationModel.get_conversation: the details
query and the secondary `conversations_by_user` query. -/
structure GetConvOracle where
  detailsQueryFails : Bool
  lastQueryFails : Bool
deriving DecidableEq, Repr

/-- Oracle under which no store call of `get_conversation` raises. -/
def noGetConvFail : GetConvOracle := ⟨false, false⟩

/-- ConversationModel.get_conversation (cassandra_models.py lines 112-195).
The whole body sits in one `try` whose handler returns `None`, so a
ValueError from `uuid.UUID(conversation_id)` and any store failure all
surface as `None`, indistinguishable from a missing details row.  When the
details row exists, the two user slots default to the all-zero sentinel and
are overridden by the stored participants; when the participant list is
nonempty a secondary lookup keyed by the first participant recovers
`last_message_time` / `last_message`, falling back to the conversation's
`created_at` and an absent content when no such row exists. -/
def conversationModelGetConversation (s : Store) (parsed : Option UUID)
    (o : GetConvOracle) : Option ConversationResponse :=
  match parsed with
  | none => none
  | some cid =>
      if o.detailsQueryFails then none else
      match selectDetails s cid with
      | none => none
      | some details =>
          let participants := details.participants
          let base : ConversationResponse :=
            { id := details.conversation_id
              user1_id := firstParticipant participants
              user2_id := secondParticipant participants
              last_message_at := details.created_at
              last_message_content := none }
          match participants with
          | [] => some base
          | p0 :: _ =>
              if o.lastQueryFails then none else
              match selectLastMessage s p0 cid with
              | some lastRow =>
                  some { base with
                         last_message_at := lastRow.last_message_time
                         last_message_content := some lastRow.last_message }
              | none => some base

/-- ConversationController.get_conversation
(conversation_controller.py lines 43-70): a `None` from the model raises
HTTPException 404; the model never raises, so the 500 branch is dead. -/
def conversationControllerGetConversation (s : Store) (parsed : Option UUID)
    (o : GetConvOracle) : HttpOutcome ConversationResponse :=
  match conversationModelGetConversation s parsed o with
  | none => .notFound
  | some r => .ok r

/-! ## Claim C1: write fan-out of a single send -/

/-- Claim C1: every call `send(sender_id, receiver_id, content)` generates a
fresh `conversation_id` — one not present anywhere in the store, hence never
reusing an existing conversation for the same pair — and performs exactly
three kinds of writes in order: a ConversationDetails row
`{conversation_id, [sender, receiver], now}`, then a MessagesByConversation
row `{conversation_id, message_id, sender, content, now}`, then one
ConversationsByUser row for the sender and one for the receiver, each
`{user_id, now, conversation_id, content, [sender, receiver]}`; the returned
message carries the generated `message_id`, the given sender, receiver and
content, and the generated `conversation_id`.  Freshness of the
identifier supply is the hypothesis that every identifier already stored is
below the supply counter. -/
theorem send_fanout_writes (s : Store) (g : Gen) (now : Timestamp)
    (sender receiver : UUID) (content : String)
    (hfresh : ∀ cid ∈ storeConversationIds s, cid < g.next) :
    send_message g now (some sender) (some receiver) content = .ok
      { response :=
          { id := g.next + 1, sender_id := sender, receiver_id := receiver,
            created_at := now, content := content, conversation_id := g.next }
        writes :=
          [ .cd { conversation_id := g.next, participants := [sender, receiver],
                  created_at := now },
            .mbc { conversation_id := g.next, message_id := g.next + 1,
                   sender_id := sender, message_text := content,
                   created_at := now },
            .cbu { user_id := sender, last_message_time := now,
                   conversation_id := g.next, last_message := content,
                   participants := [sender, receiver] },
            .cbu { user_id := receiver, last_message_time := now,
                   conversation_id := g.next, last_message := content,
                   participants := [sender, receiver] } ]
        gen := ⟨g.next + 2⟩ }
    ∧ g.next ∉ storeConversationIds s := by
  refine ⟨rfl, fun hmem => ?_⟩
  exact absurd (hfresh _ hmem) (Nat.lt_irrefl _)

/-- Demonstration store: one conversation with identifier 7 between users
1 and 2, holding three messages, and the matching per-user index rows. -/
def demoStore : Store :=
  { conversation_details := [⟨7, [1, 2], 0⟩]
    messages_by_conversation :=
      [⟨7, 103, 1, "m0", 3⟩, ⟨7, 102, 2, "m1", 2⟩, ⟨7, 101, 1, "m2", 1⟩]
    conversations_by_user := [⟨1, 3, 7, "m0", [1, 2]⟩, ⟨2, 3, 7, "m0", [1, 2]⟩] }

/-- Witness for C1 at a concrete input: sending "hi" from user 1 to user 2
over `demoStore` with supply counter 200. -/
theorem send_fanout_writes_witness :
    send_message ⟨200⟩ 9 (some 1) (some 2) "hi" = .ok
      { response :=
          { id := 201, sender_id := 1, receiver_id := 2,
            created_at := 9, content := "hi", conversation_id := 200 }
        writes :=
          [ .cd { conversation_id := 200, participants := [1, 2],
                  created_at := 9 },
            .mbc { conversation_id := 200, message_id := 201,
                   sender_id := 1, message_text := "hi", created_at := 9 },
            .cbu { user_id := 1, last_message_time := 9,
                   conversation_id := 200, last_message := "hi",
                   participants := [1, 2] },
            .cbu { user_id := 2, last_message_time := 9,
                   conversation_id := 200, last_message := "hi",
                   participants := [1, 2] } ]
        gen := ⟨202⟩ }
    ∧ 200 ∉ storeConversationIds demoStore :=
  send_fanout_writes demoStore ⟨200⟩ 9 1 2 "hi" (by decide)

/-! ## Claim C2: receiver resolution -/

/-- Claim C2: receiver resolution is a pure symmetric function over the
stored two-element participant pair: for `participants = [A, B]` the sender
`A` resolves to `B`, the sender `B` resolves to `A`, any sender matching
neither participant resolves to the all-zero sentinel, and whenever the
participant pair is unavailable (fewer than two entries) the result is the
sentinel as well — never absent, since the function is total. -/
theorem resolveReceiver_symmetric :
    (∀ A B : UUID, resolveReceiver A [A, B] = B) ∧
    (∀ A B : UUID, resolveReceiver B [A, B] = A) ∧
    (∀ s A B : UUID, s ≠ A → s ≠ B →
        resolveReceiver s [A, B] = sentinelUUID) ∧
    (∀ (s : UUID) (l : List UUID), l.length ≤ 1 →
        resolveReceiver s l = sentinelUUID) := by
  refine ⟨?_, ?_, ?_, ?_⟩
  · intro A B; simp [resolveReceiver]
  · intro A B
    by_cases h : B = A
    · subst h; simp [resolveReceiver]
    · simp [resolveReceiver, h]
  · intro s A B h1 h2; simp [resolveReceiver, h1, h2]
  · intro s l hl
    match l with
    | [] => rfl
    | [a] => rfl
    | a :: b :: t => simp at hl

/-- Witness for C2 at concrete inputs. -/
theorem resolveReceiver_symmetric_witness :
    resolveReceiver 1 [1, 2] = 2 ∧ resolveReceiver 2 [1, 2] = 1 ∧
    resolveReceiver 5 [1, 2] = sentinelUUID ∧
    resolveReceiver 5 [1] = sentinelUUID :=
  ⟨resolveReceiver_symmetric.1 1 2, resolveReceiver_symmetric.2.1 1 2,
   resolveReceiver_symmetric.2.2.1 5 1 2 (by decide) (by decide),
   resolveReceiver_symmetric.2.2.2 5 [1] (by decide)⟩

/-! ## Claim C10: one timestamp per send -/

/-- Claim C10: every row persisted by a single send carries the same
timestamp — the ConversationDetails `created_at`, the MessagesByConversation
`created_at` and the `last_message_time` of both ConversationsByUser rows
all equal the one value captured at the start of the send — and both
ConversationsByUser rows carry the message content as `last_message` and the
pair `[sender, receiver]` as `participants`. -/
theorem send_single_timestamp (g : Gen) (now : Timestamp)
    (sender receiver : UUID) (content : String) :
    ∃ res, send_message g now (some sender) (some receiver) content = .ok res
      ∧ res.writes.length = 4
      ∧ (∀ w ∈ res.writes, w.timestamp = now)
      ∧ (∀ row : CBURow, Write.cbu row ∈ res.writes →
          row.last_message = content ∧ row.participants = [sender, receiver]) := by
  refine
    ⟨{ response :=
         { id := g.next + 1, sender_id := sender, receiver_id := receiver,
           created_at := now, content := content, conversation_id := g.next }
       writes :=
         [ .cd { conversation_id := g.next, participants := [sender, receiver],
                 created_at := now },
           .mbc { conversation_id := g.next, message_id := g.next + 1,
                  sender_id := sender, message_text := content,
                  created_at := now },
           .cbu { user_id := sender, last_message_time := now,
                  conversation_id := g.next, last_message := content,
                  participants := [sender, receiver] },
           .cbu { user_id := receiver, last_message_time := now,
                  conversation_id := g.next, last_message := content,
                  participants := [sender, receiver] } ]
       gen := ⟨g.next + 2⟩ },
     rfl, rfl, fun w hw => ?_, fun row hrow => ?_⟩
  · simp only [List.mem_cons, List.not_mem_nil, or_false] at hw
    rcases hw with rfl | rfl | rfl | rfl <;> rfl
  · simp only [List.mem_cons, List.not_mem_nil, or_false] at hrow
    rcases hrow with h | h | h | h
    · exact absurd h (by intro hc; cases hc)
    · exact absurd h (by intro hc; cases hc)
    · exact ⟨congrArg CBURow.last_message (Write.cbu.inj h),
             congrArg CBURow.participants (Write.cbu.inj h)⟩
    · exact ⟨congrArg CBURow.last_message (Write.cbu.inj h),
             congrArg CBURow.participants (Write.cbu.inj h)⟩

/-! ## Claim C3: pagination algebra of listMessages -/

/-- Concatenating the slices `[i*L, i*L+L)` for `i < K` rebuilds the list,
provided `K` pages cover it. -/
theorem flatten_pySlice (L : Nat) :
    ∀ (K : Nat) (l : List α), l.length ≤ K * L →
      ((List.range K).map (fun i => pySlice l (i * L) L)).flatten = l := by
  intro K
  induction K with
  | zero =>
      intro l hl
      simp only [Nat.zero_mul, Nat.le_zero, List.length_eq_zero] at hl
      simp [hl]
  | succ K ih =>
      intro l hl
      have hstep : ∀ i : Nat,
          pySlice l (Nat.succ i * L) L = pySlice (l.drop L) (i * L) L := by
        intro i
        simp [pySlice, List.drop_drop, Nat.succ_mul, Nat.add_comm]
      rw [List.range_succ_eq_map, List.map_cons, List.map_map]
      have hfun : ((fun i => pySlice l (i * L) L) ∘ Nat.succ)
          = fun i => pySlice (l.drop L) (i * L) L := by
        funext i
        exact hstep i
      rw [hfun, List.flatten_cons]
      have hlen : (l.drop L).length ≤ K * L := by
        simp only [List.length_drop]
        have := hl
        simp only [Nat.succ_mul] at this
        omega
      rw [ih (l.drop L) hlen]
      simpa [pySlice] using List.take_append_drop L l

/-- Claim C3: for every conversation partition and validated `page ≥ 1`,
`limit ≥ 1`, the failure-free `listMessages` reports `total` as the full
partition size regardless of page and limit, returns exactly the half-open
slice `[(p-1)*L, (p-1)*L + L)` of the store-ordered row sequence (hence
`min L (N - (p-1)*L)` messages, which is `min(L, max(0, N-(p-1)*L))` in
truncated subtraction), and concatenating the data of all pages in page
order reproduces the full store-ordered message sequence, each message
exactly once. -/
theorem listMessages_pagination (s : Store) (cid : UUID) (p L : Nat)
    (hp : 1 ≤ p) (hL : 1 ≤ L) :
    get_conversation_messages s (some cid) p L noMsgsFail = .ok
      { total := (selectMessages s cid).length, page := p, limit := L
        data := (pySlice (selectMessages s cid) ((p - 1) * L) L).map
                  (rowToMessageResponse (lookupParticipants s cid)) }
    ∧ (pySlice (selectMessages s cid) ((p - 1) * L) L).length
        = min L ((selectMessages s cid).length - (p - 1) * L)
    ∧ ∀ K, (selectMessages s cid).length ≤ K * L →
        ((List.range K).map (fun i =>
            (pySlice (selectMessages s cid) (i * L) L).map
              (rowToMessageResponse (lookupParticipants s cid)))).flatten
          = (selectMessages s cid).map
              (rowToMessageResponse (lookupParticipants s cid)) := by
  refine ⟨?_, ?_, ?_⟩
  · by_cases h : (selectMessages s cid).length = 0
    · have h0 : selectMessages s cid = [] := List.length_eq_zero.mp h
      simp [get_conversation_messages, get_conversation_messagesTry,
            noMsgsFail, h0, pySlice]
    · simp [get_conversation_messages, get_conversation_messagesTry,
            noMsgsFail, h]
  · simp [pySlice]
  · intro K hK
    have hmap : ∀ i : Nat,
        (pySlice (selectMessages s cid) (i * L) L).map
            (rowToMessageResponse (lookupParticipants s cid))
          = pySlice ((selectMessages s cid).map
              (rowToMessageResponse (lookupParticipants s cid))) (i * L) L := by
      intro i
      simp [pySlice]
    simp only [hmap]
    exact flatten_pySlice L K _ (by simpa using hK)

/-- Witness for C3 at a concrete input: two pages of limit 2 over the
three-message partition of `demoStore` concatenate to the whole partition. -/
theorem listMessages_pagination_witness :
    ((List.range 2).map (fun i =>
        (pySlice (selectMessages demoStore 7) (i * 2) 2).map
          (rowToMessageResponse (lookupParticipants demoStore 7)))).flatten
      = (selectMessages demoStore 7).map
          (rowToMessageResponse (lookupParticipants demoStore 7)) :=
  (listMessages_pagination demoStore 7 1 2 (by decide) (by decide)).2.2 2
    (by decide)

/-! ## Claim C4: filtering and ordering of listMessagesBefore -/

/-- Store with two messages in conversation 7 sharing `created_at = 5`. -/
def tieStore : Store :=
  { conversation_details := [⟨7, [1, 2], 0⟩]
    messages_by_conversation := [⟨7, 101, 1, "a", 5⟩, ⟨7, 102, 2, "b", 5⟩]
    conversations_by_user := [] }

/-- One failure-free run of `get_messages_before_timestamp` over a
well-formed identifier, written as one record: `total` is the filtered set's
size, and the data page is the pagination slice of the descending-sorted
filtered rows. -/
theorem before_run_eq (s : Store) (cid : UUID) (ts : Timestamp) (p L : Nat) :
    get_messages_before_timestamp s (some cid) ts p L noBeforeFail
      = { total := (beforeRows s cid ts).length, page := p, limit := L
          data := (pySlice (sortDesc (beforeRows s cid ts)) ((p - 1) * L) L).map
                    (rowToMessageResponse (lookupParticipants s cid)) } := by
  by_cases h : beforeRows s cid ts = []
  · simp [get_messages_before_timestamp, get_messages_before_timestampTry,
          noBeforeFail, h, sortDesc, emptyMsgPage, pySlice]
  · have hne : ¬ (beforeRows s cid ts).length = 0 := by
      simpa [List.length_eq_zero] using h
    simp [get_messages_before_timestamp, get_messages_before_timestampTry,
          noBeforeFail, sortDesc, hne, h]

/-- Counterexample to claim C4 as stated: when two returned messages share a
`created_at`, the returned page is not sorted *strictly* descending — over
`tieStore` the page's timestamps are `[5, 5]`, which is not pairwise
strictly decreasing. -/
theorem listMessagesBefore_strict_counterexample :
    ((get_messages_before_timestamp tieStore (some 7) 10 1 20
        noBeforeFail).data.map (fun m => m.created_at)) = [5, 5]
    ∧ ¬ List.Pairwise (fun a b : Timestamp => b < a) [5, 5] := by
  constructor
  · rw [before_run_eq]
    have hs : sortDesc (beforeRows tieStore 7 10) = beforeRows tieStore 7 10 :=
      List.mergeSort_of_sorted (by decide)
    rw [hs]
    decide
  · decide

/-- Claim C4, amended (weakened from "strictly descending" to
"non-increasing", which ties of equal `created_at` force): the failure-free
`listMessagesBefore(conversation_id, ts, page, limit)` returns only messages
with `created_at < ts`, its page is sorted descending (non-increasing) by
`created_at`, the result set is sorted in memory before the pagination slice
is applied — the page is exactly the `[(p-1)*L, (p-1)*L+L)` slice of the
sorted filtered sequence — and `total` is the size of the filtered set. -/
theorem listMessagesBefore_filter_sorted (s : Store) (cid : UUID)
    (ts : Timestamp) (p L : Nat) :
    (∀ m ∈ (get_messages_before_timestamp s (some cid) ts p L
        noBeforeFail).data, m.created_at < ts)
    ∧ ((get_messages_before_timestamp s (some cid) ts p L
        noBeforeFail).data.map (fun m => m.created_at)).Pairwise
          (fun a b => b ≤ a)
    ∧ (get_messages_before_timestamp s (some cid) ts p L noBeforeFail).data
        = (pySlice (sortDesc (beforeRows s cid ts)) ((p - 1) * L) L).map
            (rowToMessageResponse (lookupParticipants s cid))
    ∧ (get_messages_before_timestamp s (some cid) ts p L noBeforeFail).total
        = (beforeRows s cid ts).length := by
  have hdata : (get_messages_before_timestamp s (some cid) ts p L
        noBeforeFail).data
      = (pySlice (sortDesc (beforeRows s cid ts)) ((p - 1) * L) L).map
          (rowToMessageResponse (lookupParticipants s cid)) := by
    rw [before_run_eq]
  have htotal : (get_messages_before_timestamp s (some cid) ts p L
        noBeforeFail).total = (beforeRows s cid ts).length := by
    rw [before_run_eq]
  have hsorted : (sortDesc (beforeRows s cid ts)).Pairwise
      (fun a b => b.created_at ≤ a.created_at) := by
    have htrans : ∀ a b c : MBCRow,
        msgLeDesc a b → msgLeDesc b c → msgLeDesc a c := by
      intro a b c hab hbc
      simp only [msgLeDesc, decide_eq_true_eq] at hab hbc ⊢
      exact Nat.le_trans hbc hab
    have htot : ∀ a b : MBCRow, msgLeDesc a b || msgLeDesc b a := by
      intro a b
      simp only [msgLeDesc]
      rcases Nat.le_total b.created_at a.created_at with h | h <;> simp [h]
    have h1 : ((beforeRows s cid ts).mergeSort msgLeDesc).Pairwise
        (fun a b => msgLeDesc a b = true) :=
      List.sorted_mergeSort htrans htot (beforeRows s cid ts)
    simp only [sortDesc]
    refine List.Pairwise.imp ?_ h1
    intro a b h
    simpa [msgLeDesc] using h
  have hslice : (pySlice (sortDesc (beforeRows s cid ts))
      ((p - 1) * L) L).Pairwise (fun a b => b.created_at ≤ a.created_at) :=
    hsorted.sublist ((List.take_sublist _ _).trans (List.drop_sublist _ _))
  refine ⟨?_, ?_, hdata, htotal⟩
  · intro m hm
    rw [hdata] at hm
    rcases List.mem_map.mp hm with ⟨row, hrow, rfl⟩
    have hrow2 : row ∈ sortDesc (beforeRows s cid ts) :=
      List.drop_subset _ _ (List.take_subset _ _ hrow)
    have hrow3 : row ∈ beforeRows s cid ts := by
      simpa [sortDesc] using hrow2
    have hlt := (List.mem_filter.mp hrow3).2
    simpa [rowToMessageResponse] using hlt
  · rw [hdata, List.pairwise_map, List.pairwise_map]
    exact hslice.imp (fun h => h)

/-! ## Claim C5: fail-soft contract of listMessagesBefore -/

/-- Counterexample to claim C5 as stated: an in-memory sort failure does not
yield the empty paged result — the inner handler catches it and the method
continues with the unsorted rows, returning a page with `total = 2` over
`tieStore`. -/
theorem before_sortfail_counterexample :
    (get_messages_before_timestamp tieStore (some 7) 10 1 20
        ⟨false, true, false⟩).total = 2
    ∧ get_messages_before_timestamp tieStore (some 7) 10 1 20
        ⟨false, true, false⟩ ≠ emptyMsgPage 1 20 := by
  constructor
  · rfl
  · intro h
    have h2 : (get_messages_before_timestamp tieStore (some 7) 10 1 20
        ⟨false, true, false⟩).total = 2 := rfl
    rw [h] at h2
    simp [emptyMsgPage] at h2

/-- Claim C5, amended: `listMessagesBefore` never propagates a failure — an
identifier parse failure, a store query failure on either query, and an
in-memory sort failure all still produce a well-formed paged result — but
only the parse and query failures yield the *empty* page; a sort failure is
caught by an inner handler and the method continues with the unsorted rows,
returning their (possibly non-empty) page. -/
theorem before_failsoft (s : Store) (ts : Timestamp) (p L : Nat) :
    (∀ o, get_messages_before_timestamp s none ts p L o = emptyMsgPage p L)
    ∧ (∀ cid sf df, get_messages_before_timestamp s (some cid) ts p L
        ⟨true, sf, df⟩ = emptyMsgPage p L)
    ∧ (∀ cid sf, get_messages_before_timestamp s (some cid) ts p L
        ⟨false, sf, true⟩ = emptyMsgPage p L)
    ∧ (∀ cid, get_messages_before_timestamp s (some cid) ts p L
        ⟨false, true, false⟩
        = { total := (beforeRows s cid ts).length, page := p, limit := L
            data := (pySlice (beforeRows s cid ts) ((p - 1) * L) L).map
                      (rowToMessageResponse (lookupParticipants s cid)) }) := by
  refine ⟨fun o => rfl, fun cid sf df => rfl, fun cid sf => ?_, fun cid => ?_⟩
  · by_cases h : beforeRows s cid ts = []
    · simp [get_messages_before_timestamp, get_messages_before_timestampTry,
            h, sortDesc, emptyMsgPage]
    · have hne : ¬ (beforeRows s cid ts).length = 0 := by
        simpa [List.length_eq_zero] using h
      by_cases hsf : sf <;>
        simp [get_messages_before_timestamp, get_messages_before_timestampTry,
              sortDesc, hne, h, hsf]
  · by_cases h : beforeRows s cid ts = []
    · simp [get_messages_before_timestamp, get_messages_before_timestampTry,
            h, emptyMsgPage, pySlice]
    · have hne : ¬ (beforeRows s cid ts).length = 0 := by
        simpa [List.length_eq_zero] using h
      simp [get_messages_before_timestamp, get_messages_before_timestampTry,
            hne, h]

/-! ## Claim C6: malformed identifiers on the lookup operations -/

/-- Counterexample to claim C6 as stated: a malformed identifier passed to
`getConversation` does not surface as a generic failure — the model function
catches the ValueError and returns None, which the controller maps to the
not-found outcome (HTTP 404). -/
theorem malformed_getConversation_counterexample :
    conversationControllerGetConversation demoStore none noGetConvFail
      = .notFound := rfl

/-- Claim C6, amended: a malformed identifier string propagates as a generic
failure (HTTP 500) only on `listMessages`; on `getConversation` it is
absorbed into `None` and surfaces as the not-found outcome, on
`listConversationsForUser` and on `listMessagesBefore` it yields a silently
empty page, and on the write path it propagates as a generic failure. -/
theorem malformed_identifier_outcomes (s : Store) (p L : Nat)
    (ts : Timestamp) :
    (∀ o, get_conversation_messages s none p L o = .internalError)
    ∧ (∀ o, conversationControllerGetConversation s none o = .notFound)
    ∧ (∀ qf, get_user_conversations s none p L qf = emptyConvPage p L)
    ∧ (∀ o, get_messages_before_timestamp s none ts p L o = emptyMsgPage p L)
    ∧ (∀ (g : Gen) (now : Timestamp) (content : String) (receiver : Option UUID),
        send_message g now none receiver content = .error ()) :=
  ⟨fun _ => rfl, fun _ => rfl, fun _ => rfl, fun _ => rfl,
   fun _ _ _ _ => rfl⟩

/-! ## Claim C7: the not-found outcome of getConversation -/

/-- Counterexample to claim C7 as stated: the not-found outcome does not
occur exactly when the ConversationDetails lookup returns no row — with a
well-formed identifier whose details row exists in `demoStore`, a failing
details query also surfaces as the not-found outcome. -/
theorem notfound_not_exact_counterexample :
    conversationControllerGetConversation demoStore (some 7) ⟨true, false⟩
      = .notFound
    ∧ selectDetails demoStore 7 ≠ none := by
  refine ⟨rfl, ?_⟩
  intro h
  simp [selectDetails, demoStore] at h

/-- Claim C7, amended: for a well-formed `conversation_id` under failure-free
store access, `getConversation` yields the distinct not-found outcome when
the ConversationDetails lookup returns no row and a successful summary when
it returns one, and it never yields a generic failure; the "exactly when" of
the original claim fails because store failures are also absorbed into the
not-found outcome. -/
theorem getConversation_notfound (s : Store) (cid : UUID) :
    (selectDetails s cid = none →
        conversationControllerGetConversation s (some cid) noGetConvFail
          = .notFound)
    ∧ (∀ d, selectDetails s cid = some d →
        ∃ r, conversationControllerGetConversation s (some cid) noGetConvFail
          = .ok r)
    ∧ (∀ parsed o, conversationControllerGetConversation s parsed o
        ≠ .internalError) := by
  refine ⟨?_, ?_, ?_⟩
  · intro h
    simp [conversationControllerGetConversation,
          conversationModelGetConversation, noGetConvFail, h]
  · intro d hd
    simp only [conversationControllerGetConversation,
      conversationModelGetConversation, noGetConvFail, Bool.false_eq_true,
      if_false, hd]
    rcases hparts : d.participants with _ | ⟨p0, rest⟩
    · exact ⟨_, rfl⟩
    · dsimp only
      rcases hsel : selectLastMessage s p0 cid with _ | lastRow
      · exact ⟨_, rfl⟩
      · exact ⟨_, rfl⟩
  · intro parsed o h
    unfold conversationControllerGetConversation at h
    rcases hm : conversationModelGetConversation s parsed o with _ | r <;>
      rw [hm] at h <;> cases h

/-- Empty store: no rows in any table. -/
def emptyStore : Store :=
  { conversation_details := [], messages_by_conversation := []
    conversations_by_user := [] }

/-- Witness for C7 at a concrete input: conversation 7 does not exist in the
empty store, and the outcome is not-found. -/
theorem getConversation_notfound_witness :
    conversationControllerGetConversation emptyStore (some 7) noGetConvFail
      = .notFound :=
  (getConversation_notfound emptyStore 7).1 rfl

/-! ## Claim C9: listConversationsForUser is fail-soft too -/

/-- Counterexample to claim C9 as stated: `get_user_conversations` does
convert failures into empty results — a malformed user identifier and a
store query failure both yield the valid empty page instead of propagating,
even over `demoStore`, whose index holds rows for user 1. -/
theorem listConversations_failsoft_counterexample :
    get_user_conversations demoStore none 1 20 false = emptyConvPage 1 20
    ∧ get_user_conversations demoStore (some 1) 1 20 true = emptyConvPage 1 20
    ∧ (demoStore.conversations_by_user.filter
        (fun r => r.user_id == 1)).length ≠ 0 := by
  refine ⟨rfl, rfl, ?_⟩
  simp [demoStore]

/-- Claim C9, amended: `listConversationsForUser` is fail-soft as well — an
identifier parse failure and a store query failure are caught and yield the
valid empty page `{total:0}`, exactly like the zero-matching-rows case, so
no failure propagates to the caller and the fail-soft behavior is not
exclusive to `listMessagesBefore`; on the failure-free path the reported
`total` is the number of matching rows. -/
theorem listConversations_failsoft (s : Store) (p L : Nat) :
    (∀ qf, get_user_conversations s none p L qf = emptyConvPage p L)
    ∧ (∀ u, get_user_conversations s (some u) p L true = emptyConvPage p L)
    ∧ (∀ u, (s.conversations_by_user.filter
          (fun r => r.user_id == u)).length = 0 →
        get_user_conversations s (some u) p L false = emptyConvPage p L)
    ∧ (∀ u, (get_user_conversations s (some u) p L false).total
        = (s.conversations_by_user.filter (fun r => r.user_id == u)).length) := by
  refine ⟨fun qf => rfl, fun u => rfl, fun u h => ?_, fun u => ?_⟩
  · simp [get_user_conversations, h]
  · by_cases h : (s.conversations_by_user.filter
        (fun r => r.user_id == u)).length = 0
    · simp [get_user_conversations, h, emptyConvPage]
    · simp [get_user_conversations, h]

/-- Witness for C9 at a concrete input: no rows match user 5 in the empty
store, and the result is the valid empty page. -/
theorem listConversations_failsoft_witness :
    get_user_conversations emptyStore (some 5) 1 20 false
      = emptyConvPage 1 20 :=
  (listConversations_failsoft emptyStore 1 20).2.2.1 5 rfl

/-! ## Claim C8: getById's secondary ConversationsByUser lookup -/

/-- The head of a list sorted non-increasingly by `last_message_time` bounds
every element of the list. -/
theorem head_max_of_pairwise {l : List CBURow} {x : CBURow}
    (hp : l.Pairwise (fun a b => b.last_message_time ≤ a.last_message_time))
    (hx : l.head? = some x) :
    ∀ r ∈ l, r.last_message_time ≤ x.last_message_time := by
  cases l with
  | nil => cases hx
  | cons a t =>
      cases hx
      intro r hr
      rcases List.mem_cons.mp hr with rfl | hr
      · exact Nat.le_refl _
      · exact (List.pairwise_cons.mp hp).1 r hr

/-- Claim C8: for every existing conversation — a ConversationDetails row
with a nonempty participant list — the failure-free `getById` reads the
participant pair and creation time from ConversationDetails and performs the
secondary lookup into ConversationsByUser keyed by the first participant:
when that lookup returns a row, the summary carries that row's
`last_message_time` and `last_message`, and that row is the freshest
matching row whenever the user's partition is in store clustering order
(non-increasing `last_message_time`); when no such per-user row exists, the
summary's `last_message_time` equals the conversation's `created_at` and its
`last_message` content is absent. -/
theorem getById_secondary_lookup (s : Store) (cid : UUID) (d : CDRow)
    (hd : selectDetails s cid = some d) (hne : d.participants ≠ []) :
    (∀ lastRow,
      selectLastMessage s (firstParticipant d.participants) cid
          = some lastRow →
        conversationModelGetConversation s (some cid) noGetConvFail
          = some { id := d.conversation_id
                   user1_id := firstParticipant d.participants
                   user2_id := secondParticipant d.participants
                   last_message_at := lastRow.last_message_time
                   last_message_content := some lastRow.last_message }
        ∧ ((s.conversations_by_user.filter
              (fun r => r.user_id == firstParticipant d.participants)).Pairwise
                (fun a b => b.last_message_time ≤ a.last_message_time) →
            ∀ r ∈ s.conversations_by_user.filter
              (fun r => r.user_id == firstParticipant d.participants
                        && r.conversation_id == cid),
              r.last_message_time ≤ lastRow.last_message_time))
    ∧ (selectLastMessage s (firstParticipant d.participants) cid = none →
        conversationModelGetConversation s (some cid) noGetConvFail
          = some { id := d.conversation_id
                   user1_id := firstParticipant d.participants
                   user2_id := secondParticipant d.participants
                   last_message_at := d.created_at
                   last_message_content := none }) := by
  rcases hparts : d.participants with _ | ⟨p0, rest⟩
  · exact absurd hparts hne
  have hfirst : firstParticipant (p0 :: rest) = p0 := rfl
  constructor
  · intro lastRow hsel
    rw [hfirst] at hsel
    constructor
    · simp only [conversationModelGetConversation, noGetConvFail,
        Bool.false_eq_true, if_false, hd, hparts, hfirst]
      rw [hsel]
    · intro hpair r hr
      have heq : s.conversations_by_user.filter
          (fun r => r.user_id == p0 && r.conversation_id == cid)
          = (s.conversations_by_user.filter
              (fun r => r.user_id == p0)).filter
                (fun r => r.conversation_id == cid) := by
        rw [List.filter_filter]
        apply List.filter_congr
        intro a ha
        exact Bool.and_comm _ _
      have hsub : (s.conversations_by_user.filter
          (fun r => r.user_id == p0 && r.conversation_id == cid)).Pairwise
            (fun a b => b.last_message_time ≤ a.last_message_time) := by
        rw [heq]
        exact hpair.sublist (List.filter_sublist _)
      exact head_max_of_pairwise hsub hsel r hr
  · intro hsel
    rw [hfirst] at hsel
    simp only [conversationModelGetConversation, noGetConvFail,
      Bool.false_eq_true, if_false, hd, hparts, hfirst]
    rw [hsel]

/-- Store for the C8 witness: conversation 7 between users 1 and 2 created
at time 3, with one per-user index row for user 1 at time 9. -/
def c8Store : Store :=
  { conversation_details := [⟨7, [1, 2], 3⟩]
    messages_by_conversation := []
    conversations_by_user := [⟨1, 9, 7, "hey", [1, 2]⟩] }

/-- Witness for C8 at a concrete input: the summary for conversation 7 of
`c8Store` carries the per-user row's time 9 and content "hey". -/
theorem getById_secondary_lookup_witness :
    conversationModelGetConversation c8Store (some 7) noGetConvFail
      = some { id := 7, user1_id := 1, user2_id := 2, last_message_at := 9
               last_message_content := some "hey" } :=
  (((getById_secondary_lookup c8Store 7 ⟨7, [1, 2], 3⟩ rfl (by decide)).1
      ⟨1, 9, 7, "hey", [1, 2]⟩) rfl).1

end Messenger
